import Mathlib

/-!
Shallow embedding of the kanbex backend (a tRPC kanban-board server) and a
verification of its specification.  The routers in src/router and the
context builder in src/context.ts are translated operation by operation:
Prisma queries become List.find? / List.filter over an in-memory database
value, mutations return the successor database, and every TRPCError
surfaced to the client becomes an Err value.  External libraries (bcrypt,
jsonwebtoken) are modelled by small idealized functions, as the
specification treats them as opaque primitives.
-/

namespace Kanbex

/-- Error outcomes observable by a client: the TRPCError codes used by the
routers, plus the two jsonwebtoken failures that escape createContext
uncaught. -/
inductive Err where
  | badRequest
  | unauthorized
  | notFound
  | internalServerError
  | invalidToken
  | tokenExpired
deriving DecidableEq, Repr

/-- Decide whether a router call ended in an error. -/
def isErr {α : Type} : Except Err α → Bool
  | .error _ => true
  | .ok _ => false

/-- JavaScript logical-or applied to a nullable string against a string
default: null and the empty string are falsy. -/
def jsOrStr : Option String → String → String
  | none, y => y
  | some s, y => if s = "" then y else s

/-- JavaScript logical-or applied to a nullable string against a nullable
default. -/
def jsOrOptStr : Option String → Option String → Option String
  | none, y => y
  | some s, y => if s = "" then y else some s

/-- JavaScript logical-or applied to a nullable number: null and 0 are
falsy. -/
def jsOrNat : Option Nat → Nat → Nat
  | none, y => y
  | some n, y => if n = 0 then y else n

/-- Models the external bcrypt library: a digest is a tagged copy of the
hashed password, so compare succeeds exactly on the original password. -/
def bcryptHash (password : String) : String := "bcrypt$" ++ password

/-- Models bcrypt.compare applied to a candidate password and a stored
digest. -/
def bcryptCompare (password digest : String) : Bool := bcryptHash password == digest

/-- A row of the User table (prisma model User). -/
structure UserRec where
  externalID : String
  username : String
  name : String
  email : String
  password : String
  deleted : Bool
deriving DecidableEq, Repr

/-- A row of the Board table. -/
structure BoardRec where
  externalID : String
  title : String
  description : String
  createdByID : String
  deleted : Bool
deriving DecidableEq, Repr

/-- A row of the Stage table. -/
structure StageRec where
  externalID : String
  title : String
  description : String
  createdByID : String
  boardExternalID : String
  deleted : Bool
deriving DecidableEq, Repr

/-- A row of the Task table. -/
structure TaskRec where
  externalID : String
  title : String
  description : Option String
  dueDate : Nat
  priority : Nat
  createdByID : String
  stageExternalID : String
  deleted : Bool
deriving DecidableEq, Repr

/-- The persistent store reachable through the prisma client. -/
structure DB where
  users : List UserRec
  boards : List BoardRec
  stages : List StageRec
  tasks : List TaskRec
deriving DecidableEq, Repr

/-- Models a bearer token as seen by jsonwebtoken: either a string that is
not a JWT at all, or a signed payload carrying the externalID claim, the
issue and expiry times, and the secret used for the signature. -/
inductive BearerToken where
  | malformed
  | signed (externalID : String) (iat : Nat) (exp : Nat) (secret : String)
deriving DecidableEq, Repr

/-- Models jwt.sign as called by authRouter.login: payload externalID,
HS256 with the server secret, expiresIn one day (86400 seconds). -/
def jwtSign (externalID secret : String) (now : Nat) : BearerToken :=
  .signed externalID now (now + 86400) secret

/-- Models jwt.verify: fails on a malformed token or a wrong signature
with JsonWebTokenError, on an expired token with TokenExpiredError, and
otherwise returns the decoded externalID claim. -/
def jwtVerify (tok : BearerToken) (secret : String) (now : Nat) : Except Err String :=
  match tok with
  | .malformed => .error .invalidToken
  | .signed eid _ exp s =>
      if s = secret then
        if now < exp then .ok eid else .error .tokenExpired
      else .error .invalidToken

/-- The request context produced by createContext: the resolved user, or
none for an anonymous request. -/
structure Ctx where
  user : Option UserRec
deriving DecidableEq, Repr

/-- createContext from context.ts (the revision that extracts the
externalID claim from the decoded payload).  A missing bearer token yields
an anonymous context; a present token goes through jwt.verify with no
surrounding try/catch, so a verification failure propagates out of
createContext; a verified externalID is looked up with findUnique, which
carries no filter on the deleted flag. -/
def createContext (db : DB) (auth : Option BearerToken) (secret : String) (now : Nat) :
    Except Err Ctx :=
  match auth with
  | none => .ok ⟨none⟩
  | some tok =>
    match jwtVerify tok secret now with
    | .error e => .error e
    | .ok eid => .ok ⟨db.users.find? (fun x => x.externalID == eid)⟩

/-- Modelled from the commented-out isAuthorized middleware in trpc.ts
(the only definition of protectedProcedure in the repository, lines 50 to
59): reject a null context user with UNAUTHORIZED before the handler
runs. -/
def isAuthorized (user : Option UserRec) : Except Err Unit :=
  match user with
  | none => .error .unauthorized
  | some _ => .ok ()

/-- Input of auth.login. -/
structure LoginInput where
  username : String
  password : String
deriving DecidableEq, Repr

/-- authRouter.login: findUnique by username (no deleted filter), compare
the password with bcrypt, sign a one-day token.  The BAD_REQUEST errors
thrown inside the try block are caught by the catch-all and resurface as
INTERNAL_SERVER_ERROR. -/
def login (db : DB) (inp : LoginInput) (secret : String) (now : Nat) :
    Except Err BearerToken :=
  match db.users.find? (fun x => x.username == inp.username) with
  | none => .error .internalServerError
  | some u =>
    if bcryptCompare inp.password u.password then
      .ok (jwtSign u.externalID secret now)
    else .error .internalServerError

/-- Output shape of user.me and user.updateUser. -/
structure UserOut where
  externalID : String
  username : String
  name : String
  email : String
deriving DecidableEq, Repr

/-- userRouter.me: returns the context user as-is.  With the authorization
middleware commented out in trpc.ts, a null context user makes the
property access ctx.user.externalID raise a TypeError, which tRPC
surfaces as INTERNAL_SERVER_ERROR. -/
def userMe (user : Option UserRec) : Except Err UserOut :=
  match user with
  | none => .error .internalServerError
  | some u => .ok ⟨u.externalID, u.username, u.name, u.email⟩

/-- Input of user.updateUser; externalID is required by the input shape
but never read by the handler. -/
structure UserUpdateInput where
  externalID : String
  name : Option String
  email : Option String
  password : Option String
deriving DecidableEq, Repr

/-- The handler reassigns input.password to its bcrypt hash only when the
incoming value is truthy. -/
def hashIfTruthy : Option String → Option String
  | none => none
  | some p => if p = "" then some p else some (bcryptHash p)

/-- userRouter.updateUser: looks up the caller by ctx.user.externalID with
deleted false (a missing row raises NOT_FOUND inside the try block, which
the catch rethrows as INTERNAL_SERVER_ERROR), hashes a truthy password,
and updates the row keyed by ctx.user.externalID; undefined data fields
are skipped by prisma.  input.externalID is ignored throughout. -/
def userUpdate (user : Option UserRec) (db : DB) (inp : UserUpdateInput) :
    Except Err (UserOut × DB) :=
  match user with
  | none => .error .internalServerError
  | some u =>
    match db.users.find? (fun x => x.externalID == u.externalID && x.deleted == false) with
    | none => .error .internalServerError
    | some u0 =>
      let pw := hashIfTruthy inp.password
      let patched := fun (x : UserRec) =>
        { x with
          name := inp.name.getD x.name
          email := inp.email.getD x.email
          password := pw.getD x.password }
      .ok (⟨(patched u0).externalID, (patched u0).username, (patched u0).name,
            (patched u0).email⟩,
        { db with users := db.users.map (fun x => if x.externalID == u.externalID then patched x else x) })

/-- Input of user.deleteUser; externalID is required by the input shape
but never read by the handler. -/
structure UserDeleteInput where
  externalID : String
deriving DecidableEq, Repr

/-- userRouter.deleteUser: flips the deleted flag on the row keyed by
ctx.user.externalID; a missing unique row makes prisma raise, rethrown as
INTERNAL_SERVER_ERROR.  input.externalID is ignored. -/
def userDelete (user : Option UserRec) (db : DB) (_inp : UserDeleteInput) :
    Except Err DB :=
  match user with
  | none => .error .internalServerError
  | some u =>
    if db.users.any (fun x => x.externalID == u.externalID) then
      .ok { db with users := db.users.map (fun x => if x.externalID == u.externalID then { x with deleted := true } else x) }
    else .error .internalServerError

/-- Pagination input shared by the three list procedures. -/
structure ListInput where
  limit : Nat
  offset : Nat
deriving DecidableEq, Repr

/-- boardRouter.list: findMany with deleted false scoped to the caller,
skip offset, take limit. -/
def boardList (user : Option UserRec) (db : DB) (inp : ListInput) :
    Except Err (List BoardRec) :=
  match user with
  | none => .error .internalServerError
  | some u =>
    .ok (((db.boards.filter
      (fun b => b.deleted == false && b.createdByID == u.externalID)).drop inp.offset).take
        inp.limit)

/-- boardRouter.get: findFirst scoped by externalID, deleted false and
owner; a missing row raises NOT_FOUND inside the try block, which the
catch-all rethrows as INTERNAL_SERVER_ERROR.  The Stage include returns
the stages of the board with no filter on their deleted flag. -/
def boardGet (user : Option UserRec) (db : DB) (externalID : String) :
    Except Err (BoardRec × List StageRec) :=
  match user with
  | none => .error .internalServerError
  | some u =>
    match db.boards.find?
        (fun b => b.externalID == externalID && b.deleted == false &&
          b.createdByID == u.externalID) with
    | none => .error .internalServerError
    | some b => .ok (b, db.stages.filter (fun s => s.boardExternalID == b.externalID))

/-- Input of board.create. -/
structure BoardCreateInput where
  title : String
  description : Option String
deriving DecidableEq, Repr

/-- boardRouter.create: findFirstOrThrow on a non-deleted same-title board
of the caller, so the call raises (INTERNAL_SERVER_ERROR) precisely when
no such board exists, and otherwise inserts the new row; connect on
createdBy raises if the caller row is absent. -/
def boardCreate (user : Option UserRec) (db : DB) (inp : BoardCreateInput)
    (fresh : String) : Except Err (BoardRec × DB) :=
  match user with
  | none => .error .internalServerError
  | some u =>
    match db.boards.find?
        (fun b => b.title == inp.title && b.deleted == false &&
          b.createdByID == u.externalID) with
    | none => .error .internalServerError
    | some _ =>
      if db.users.any (fun x => x.externalID == u.externalID) then
        let b : BoardRec := ⟨fresh, inp.title, inp.description.getD "", u.externalID, false⟩
        .ok (b, { db with boards := db.boards ++ [b] })
      else .error .internalServerError

/-- Input of board.update; title and description are optional. -/
structure BoardUpdateInput where
  externalID : String
  title : Option String
  description : Option String
deriving DecidableEq, Repr

/-- The data block of boardRouter.update: prisma skips undefined fields,
so an absent input field keeps the stored value. -/
def boardPatch (inp : BoardUpdateInput) (b : BoardRec) : BoardRec :=
  { b with
    title := inp.title.getD b.title
    description := inp.description.getD b.description }

/-- boardRouter.update: findFirstOrThrow scoped by externalID, deleted
false and owner, then update keyed by externalID. -/
def boardUpdate (user : Option UserRec) (db : DB) (inp : BoardUpdateInput) :
    Except Err (BoardRec × DB) :=
  match user with
  | none => .error .internalServerError
  | some u =>
    match db.boards.find?
        (fun b => b.externalID == inp.externalID && b.deleted == false &&
          b.createdByID == u.externalID) with
    | none => .error .internalServerError
    | some b0 =>
      .ok (boardPatch inp b0,
        { db with boards := db.boards.map (fun b => if b.externalID == inp.externalID then boardPatch inp b else b) })

/-- boardRouter.delete: findFirstOrThrow scoped by externalID, deleted
false and owner, then flip the deleted flag. -/
def boardDelete (user : Option UserRec) (db : DB) (externalID : String) :
    Except Err DB :=
  match user with
  | none => .error .internalServerError
  | some u =>
    match db.boards.find?
        (fun b => b.externalID == externalID && b.deleted == false &&
          b.createdByID == u.externalID) with
    | none => .error .internalServerError
    | some _ =>
      .ok { db with boards := db.boards.map (fun b => if b.externalID == externalID then { b with deleted := true } else b) }

/-- stageRouter.list: findMany with deleted false scoped to the caller,
skip offset, take limit. -/
def stageList (user : Option UserRec) (db : DB) (inp : ListInput) :
    Except Err (List StageRec) :=
  match user with
  | none => .error .internalServerError
  | some u =>
    .ok (((db.stages.filter
      (fun s => s.deleted == false && s.createdByID == u.externalID)).drop inp.offset).take
        inp.limit)

/-- stageRouter.get: findFirstOrThrow scoped by externalID, deleted false
and owner; the Task include returns the tasks of the stage with no filter
on their deleted flag. -/
def stageGet (user : Option UserRec) (db : DB) (externalID : String) :
    Except Err (StageRec × List TaskRec) :=
  match user with
  | none => .error .internalServerError
  | some u =>
    match db.stages.find?
        (fun s => s.externalID == externalID && s.deleted == false &&
          s.createdByID == u.externalID) with
    | none => .error .internalServerError
    | some s => .ok (s, db.tasks.filter (fun t => t.stageExternalID == s.externalID))

/-- Input of stage.create. -/
structure StageCreateInput where
  title : String
  description : String
  boardExternalID : String
deriving DecidableEq, Repr

/-- stageRouter.create: findFirstOrThrow queries the BOARD table for a
non-deleted board of the caller whose title equals the stage title, and
raises when none exists; the stage is then connected to the board keyed
by input.boardExternalID with no check of that board beyond existence of
the unique row. -/
def stageCreate (user : Option UserRec) (db : DB) (inp : StageCreateInput)
    (fresh : String) : Except Err (StageRec × DB) :=
  match user with
  | none => .error .internalServerError
  | some u =>
    match db.boards.find?
        (fun b => b.title == inp.title && b.deleted == false &&
          b.createdByID == u.externalID) with
    | none => .error .internalServerError
    | some _ =>
      if db.users.any (fun x => x.externalID == u.externalID) &&
          db.boards.any (fun b => b.externalID == inp.boardExternalID) then
        let s : StageRec :=
          ⟨fresh, inp.title, inp.description, u.externalID, inp.boardExternalID, false⟩
        .ok (s, { db with stages := db.stages ++ [s] })
      else .error .internalServerError

/-- Input of stage.update; title and description are required. -/
structure StageUpdateInput where
  externalID : String
  title : String
  description : String
deriving DecidableEq, Repr

/-- The data block of stageRouter.update: both fields are set from the
input. -/
def stagePatch (inp : StageUpdateInput) (s : StageRec) : StageRec :=
  { s with title := inp.title, description := inp.description }

/-- stageRouter.update: findFirstOrThrow scoped by externalID, deleted
false and owner, then update keyed by externalID. -/
def stageUpdate (user : Option UserRec) (db : DB) (inp : StageUpdateInput) :
    Except Err (StageRec × DB) :=
  match user with
  | none => .error .internalServerError
  | some u =>
    match db.stages.find?
        (fun s => s.externalID == inp.externalID && s.deleted == false &&
          s.createdByID == u.externalID) with
    | none => .error .internalServerError
    | some s0 =>
      .ok (stagePatch inp s0,
        { db with stages := db.stages.map (fun s => if s.externalID == inp.externalID then stagePatch inp s else s) })

/-- stageRouter.delete: findFirstOrThrow scoped by externalID, deleted
false and owner, then flip the deleted flag. -/
def stageDelete (user : Option UserRec) (db : DB) (externalID : String) :
    Except Err DB :=
  match user with
  | none => .error .internalServerError
  | some u =>
    match db.stages.find?
        (fun s => s.externalID == externalID && s.deleted == false &&
          s.createdByID == u.externalID) with
    | none => .error .internalServerError
    | some _ =>
      .ok { db with stages := db.stages.map (fun s => if s.externalID == externalID then { s with deleted := true } else s) }

/-- taskRouter.list: findMany with deleted false scoped to the caller,
skip offset, take limit. -/
def taskList (user : Option UserRec) (db : DB) (inp : ListInput) :
    Except Err (List TaskRec) :=
  match user with
  | none => .error .internalServerError
  | some u =>
    .ok (((db.tasks.filter
      (fun t => t.deleted == false && t.createdByID == u.externalID)).drop inp.offset).take
        inp.limit)

/-- taskRouter.get: findFirstOrThrow scoped by externalID, deleted false
and owner; the stage include pulls the parent stage row with no filter. -/
def taskGet (user : Option UserRec) (db : DB) (externalID : String) :
    Except Err (TaskRec × Option StageRec) :=
  match user with
  | none => .error .internalServerError
  | some u =>
    match db.tasks.find?
        (fun t => t.externalID == externalID && t.deleted == false &&
          t.createdByID == u.externalID) with
    | none => .error .internalServerError
    | some t => .ok (t, db.stages.find? (fun s => s.externalID == t.stageExternalID))

/-- Input of task.create. -/
structure TaskCreateInput where
  title : String
  description : Option String
  dueDate : Option Nat
  priority : Nat
  stageExternalID : String
deriving DecidableEq, Repr

/-- taskRouter.create: findFirstOrThrow queries the STAGE table for a
non-deleted stage of the caller whose title equals the TASK title, and
raises when none exists; the task is then connected to the stage keyed by
input.stageExternalID with no check of that stage beyond existence of the
unique row.  A null dueDate is replaced by the current time. -/
def taskCreate (user : Option UserRec) (db : DB) (inp : TaskCreateInput)
    (fresh : String) (now : Nat) : Except Err (TaskRec × DB) :=
  match user with
  | none => .error .internalServerError
  | some u =>
    match db.stages.find?
        (fun s => s.title == inp.title && s.deleted == false &&
          s.createdByID == u.externalID) with
    | none => .error .internalServerError
    | some _ =>
      if db.users.any (fun x => x.externalID == u.externalID) &&
          db.stages.any (fun s => s.externalID == inp.stageExternalID) then
        let t : TaskRec :=
          ⟨fresh, inp.title, inp.description, inp.dueDate.getD now, inp.priority,
            u.externalID, inp.stageExternalID, false⟩
        .ok (t, { db with tasks := db.tasks ++ [t] })
      else .error .internalServerError

/-- Input of task.update; every patch field is nullable. -/
structure TaskUpdateInput where
  externalID : String
  title : Option String
  description : Option String
  dueDate : Option Nat
  priority : Option Nat
  stageExternalID : Option String
deriving DecidableEq, Repr

/-- The data block of taskRouter.update: each field is the JavaScript
logical-or of the input field and the previously fetched value (a Date is
always truthy, so dueDate falls back only on null). -/
def taskPatch (inp : TaskUpdateInput) (t : TaskRec) : TaskRec :=
  { t with
    title := jsOrStr inp.title t.title
    description := jsOrOptStr inp.description t.description
    dueDate := inp.dueDate.getD t.dueDate
    priority := jsOrNat inp.priority t.priority
    stageExternalID := jsOrStr inp.stageExternalID t.stageExternalID }

/-- taskRouter.update: findFirstOrThrow scoped by externalID, deleted
false and owner, then update keyed by externalID with the patched data;
the stage connect raises if no stage row has the connected externalID.
The handler returns the record fetched BEFORE the update. -/
def taskUpdate (user : Option UserRec) (db : DB) (inp : TaskUpdateInput) :
    Except Err (TaskRec × DB) :=
  match user with
  | none => .error .internalServerError
  | some u =>
    match db.tasks.find?
        (fun r => r.externalID == inp.externalID && r.deleted == false &&
          r.createdByID == u.externalID) with
    | none => .error .internalServerError
    | some t =>
      if db.stages.any (fun s => s.externalID == jsOrStr inp.stageExternalID t.stageExternalID) then
        .ok (t, { db with tasks := db.tasks.map (fun r => if r.externalID == inp.externalID then taskPatch inp t else r) })
      else .error .internalServerError

/-- taskRouter.delete: findFirstOrThrow scoped by externalID, deleted
false and owner, then flip the deleted flag. -/
def taskDelete (user : Option UserRec) (db : DB) (externalID : String) :
    Except Err DB :=
  match user with
  | none => .error .internalServerError
  | some u =>
    match db.tasks.find?
        (fun t => t.externalID == externalID && t.deleted == false &&
          t.createdByID == u.externalID) with
    | none => .error .internalServerError
    | some _ =>
      .ok { db with tasks := db.tasks.map (fun t => if t.externalID == externalID then { t with deleted := true } else t) }

/-- Sample user alice, owner of the first board, stage and task. -/
def aliceU : UserRec := ⟨"u-a", "alice", "Alice", "alice@example.com", bcryptHash "password1", false⟩

/-- Sample user bob, owner of the second board, stage and task. -/
def bobU : UserRec := ⟨"u-b", "bob", "Bob", "bob@example.com", bcryptHash "password2", false⟩

/-- Board owned by alice. -/
def boardA : BoardRec := ⟨"b-a", "Backlog", "alice board", "u-a", false⟩

/-- Board owned by bob, titled Sneak. -/
def boardSneak : BoardRec := ⟨"b-b", "Sneak", "bob board", "u-b", false⟩

/-- Stage owned by alice on her board. -/
def stageA : StageRec := ⟨"s-a", "Doing", "", "u-a", "b-a", false⟩

/-- Stage owned by bob on his board. -/
def stageB : StageRec := ⟨"s-b", "Doing", "", "u-b", "b-b", false⟩

/-- Task owned by alice on her stage. -/
def taskA : TaskRec := ⟨"t-a", "Alice task", none, 1, 0, "u-a", "s-a", false⟩

/-- Task owned by bob on his stage. -/
def taskB : TaskRec := ⟨"t-b", "Fix bug", none, 3, 1, "u-b", "s-b", false⟩

/-- A two-user database with one board, stage and task per user. -/
def dbMain : DB := ⟨[aliceU, bobU], [boardA, boardSneak], [stageA, stageB], [taskA, taskB]⟩

/-- A soft-deleted user who still holds a valid token. -/
def adaU : UserRec := ⟨"u-ad", "ada", "Ada", "ada@example.com", bcryptHash "password3", true⟩

/-- Board owned by the soft-deleted user ada. -/
def boardRetro : BoardRec := ⟨"b-ad", "Retro", "", "u-ad", false⟩

/-- A soft-deleted stage on the Retro board. -/
def stageDone : StageRec := ⟨"s-d", "Done", "", "u-ad", "b-ad", true⟩

/-- Database for the soft-delete counterexample. -/
def dbC3 : DB := ⟨[adaU], [boardRetro], [stageDone], []⟩

/-- Database in which alice owns no board yet (one stage exists). -/
def dbC5 : DB := ⟨[aliceU], [], [stageA], []⟩

/-- Board titled Sprint 1 owned by alice. -/
def boardSprint : BoardRec := ⟨"b-1", "Sprint 1", "", "u-a", false⟩

/-- Database already holding a Sprint 1 board of alice. -/
def dbDup : DB := ⟨[aliceU], [boardSprint], [], []⟩

/-- The duplicate Sprint 1 board that board.create inserts over dbDup. -/
def boardDupNew : BoardRec := ⟨"b-2", "Sprint 1", "x", "u-a", false⟩

/-- Scoped board lookup misses when no board with the given externalID
belongs to the caller. -/
theorem find_none_board {u : UserRec} {l : List BoardRec} {eid : String}
    (h : ∀ b ∈ l, b.externalID = eid → b.createdByID ≠ u.externalID) :
    l.find? (fun b => b.externalID == eid && b.deleted == false &&
      b.createdByID == u.externalID) = none := by
  rw [List.find?_eq_none]
  intro b hb hpb
  simp only [Bool.and_eq_true, beq_iff_eq] at hpb
  exact h b hb hpb.1.1 hpb.2

/-- Scoped stage lookup misses when no stage with the given externalID
belongs to the caller. -/
theorem find_none_stage {u : UserRec} {l : List StageRec} {eid : String}
    (h : ∀ s ∈ l, s.externalID = eid → s.createdByID ≠ u.externalID) :
    l.find? (fun s => s.externalID == eid && s.deleted == false &&
      s.createdByID == u.externalID) = none := by
  rw [List.find?_eq_none]
  intro s hs hps
  simp only [Bool.and_eq_true, beq_iff_eq] at hps
  exact h s hs hps.1.1 hps.2

/-- Scoped task lookup misses when no task with the given externalID
belongs to the caller. -/
theorem find_none_task {u : UserRec} {l : List TaskRec} {eid : String}
    (h : ∀ t ∈ l, t.externalID = eid → t.createdByID ≠ u.externalID) :
    l.find? (fun t => t.externalID == eid && t.deleted == false &&
      t.createdByID == u.externalID) = none := by
  rw [List.find?_eq_none]
  intro t ht hpt
  simp only [Bool.and_eq_true, beq_iff_eq] at hpt
  exact h t ht hpt.1.1 hpt.2

/-- C1: ownership isolation.  For every caller and every Board, Stage or
Task whose owner is a different user, the get, update and delete
operations fail with an error (the scoped lookup misses, so the handler
raises) and produce no successor database. -/
theorem claim1_ownership_isolation
    (u : UserRec) (db : DB)
    (binp : BoardUpdateInput) (sinp : StageUpdateInput) (tinp : TaskUpdateInput)
    (eidB eidS eidT : String)
    (hbe : binp.externalID = eidB) (hse : sinp.externalID = eidS)
    (hte : tinp.externalID = eidT)
    (hB : ∀ b ∈ db.boards, b.externalID = eidB → b.createdByID ≠ u.externalID)
    (hS : ∀ s ∈ db.stages, s.externalID = eidS → s.createdByID ≠ u.externalID)
    (hT : ∀ t ∈ db.tasks, t.externalID = eidT → t.createdByID ≠ u.externalID) :
    isErr (boardGet (some u) db eidB) = true ∧
    isErr (boardUpdate (some u) db binp) = true ∧
    isErr (boardDelete (some u) db eidB) = true ∧
    isErr (stageGet (some u) db eidS) = true ∧
    isErr (stageUpdate (some u) db sinp) = true ∧
    isErr (stageDelete (some u) db eidS) = true ∧
    isErr (taskGet (some u) db eidT) = true ∧
    isErr (taskUpdate (some u) db tinp) = true ∧
    isErr (taskDelete (some u) db eidT) = true := by
  subst hbe hse hte
  have hb := find_none_board hB
  have hs := find_none_stage hS
  have ht := find_none_task hT
  refine ⟨?_, ?_, ?_, ?_, ?_, ?_, ?_, ?_, ?_⟩ <;>
    simp only [boardGet, boardUpdate, boardDelete, stageGet, stageUpdate, stageDelete,
      taskGet, taskUpdate, taskDelete] <;>
    first
      | (rw [hb]; rfl)
      | (rw [hs]; rfl)
      | (rw [ht]; rfl)

/-- C1 witness: bob cannot get, update or delete any of the entities alice
owns in the sample database. -/
theorem claim1_witness :
    isErr (boardGet (some bobU) dbMain "b-a") = true ∧
    isErr (boardUpdate (some bobU) dbMain ⟨"b-a", none, none⟩) = true ∧
    isErr (boardDelete (some bobU) dbMain "b-a") = true ∧
    isErr (stageGet (some bobU) dbMain "s-a") = true ∧
    isErr (stageUpdate (some bobU) dbMain ⟨"s-a", "x", "y"⟩) = true ∧
    isErr (stageDelete (some bobU) dbMain "s-a") = true ∧
    isErr (taskGet (some bobU) dbMain "t-a") = true ∧
    isErr (taskUpdate (some bobU) dbMain ⟨"t-a", none, none, none, none, none⟩) = true ∧
    isErr (taskDelete (some bobU) dbMain "t-a") = true :=
  claim1_ownership_isolation bobU dbMain ⟨"b-a", none, none⟩ ⟨"s-a", "x", "y"⟩
    ⟨"t-a", none, none, none, none, none⟩ "b-a" "s-a" "t-a" rfl rfl rfl
    (by decide) (by decide) (by decide)

/-- C2: with the authorization middleware commented out in trpc.ts, a
request whose context user is null does not fail with Unauthorized: the
handler dereference of ctx.user raises a TypeError that surfaces as
INTERNAL_SERVER_ERROR on every operation (and no successor database is
produced), while the commented-out isAuthorized middleware is what would
have produced UNAUTHORIZED. -/
theorem claim2_null_user_not_unauthorized (db : DB) (linp : ListInput)
    (binp : BoardCreateInput) (uinp : UserUpdateInput) (tinp : TaskUpdateInput)
    (eid fresh : String) :
    boardList none db linp = .error .internalServerError ∧
    stageList none db linp = .error .internalServerError ∧
    taskList none db linp = .error .internalServerError ∧
    userMe none = .error .internalServerError ∧
    userUpdate none db uinp = .error .internalServerError ∧
    userDelete none db ⟨eid⟩ = .error .internalServerError ∧
    boardGet none db eid = .error .internalServerError ∧
    boardCreate none db binp fresh = .error .internalServerError ∧
    taskUpdate none db tinp = .error .internalServerError ∧
    taskDelete none db eid = .error .internalServerError ∧
    isAuthorized none = .error .unauthorized ∧
    Err.internalServerError ≠ Err.unauthorized :=
  ⟨rfl, rfl, rfl, rfl, rfl, rfl, rfl, rfl, rfl, rfl, rfl, by decide⟩

/-- C10: user.updateUser and user.deleteUser key every read and write on
ctx.user.externalID and never read input.externalID, so any two values of
that input field produce identical responses and identical successor
databases. -/
theorem claim10_externalid_ignored (user : Option UserRec) (db : DB)
    (e1 e2 : String) (nm em pw : Option String) :
    userUpdate user db ⟨e1, nm, em, pw⟩ = userUpdate user db ⟨e2, nm, em, pw⟩ ∧
    userDelete user db ⟨e1⟩ = userDelete user db ⟨e2⟩ :=
  ⟨rfl, rfl⟩

/-- C3 counterexample: the soft-deleted user ada still resolves through
createContext (the findUnique lookup has no deleted filter), so the get
operation user.me returns her record even though her deleted flag is set;
likewise board.get embeds the soft-deleted stage of the Retro board in
its result. -/
theorem claim3_counterexample :
    adaU.deleted = true ∧
    createContext dbC3 (some (jwtSign "u-ad" "secret" 0)) "secret" 100 = .ok ⟨some adaU⟩ ∧
    userMe (some adaU) = .ok ⟨"u-ad", "ada", "Ada", "ada@example.com"⟩ ∧
    stageDone.deleted = true ∧
    boardGet (some adaU) dbC3 "b-ad" = .ok (boardRetro, [stageDone]) :=
  ⟨rfl, rfl, rfl, rfl, rfl⟩

/-- C3 as amended: Board, Stage and Task list results and the primary
record of get results never contain a soft-deleted row; the exceptions
are user.me, which returns the context user even when soft-deleted, and
the related records embedded by the includes, which are not filtered. -/
theorem claim3_amended (u : UserRec) (db : DB) (inp : ListInput) (eid : String) :
    (∀ l, boardList (some u) db inp = .ok l → ∀ b ∈ l, b.deleted = false) ∧
    (∀ l, stageList (some u) db inp = .ok l → ∀ s ∈ l, s.deleted = false) ∧
    (∀ l, taskList (some u) db inp = .ok l → ∀ t ∈ l, t.deleted = false) ∧
    (∀ b ss, boardGet (some u) db eid = .ok (b, ss) → b.deleted = false) ∧
    (∀ s ts, stageGet (some u) db eid = .ok (s, ts) → s.deleted = false) ∧
    (∀ t os, taskGet (some u) db eid = .ok (t, os) → t.deleted = false) := by
  refine ⟨?_, ?_, ?_, ?_, ?_, ?_⟩
  · intro l h b hb
    simp only [boardList, Except.ok.injEq] at h
    subst h
    have hb2 := List.mem_of_mem_drop (List.mem_of_mem_take hb)
    have hp := (List.mem_filter.mp hb2).2
    simp only [Bool.and_eq_true, beq_iff_eq] at hp
    exact hp.1
  · intro l h s hs
    simp only [stageList, Except.ok.injEq] at h
    subst h
    have hs2 := List.mem_of_mem_drop (List.mem_of_mem_take hs)
    have hp := (List.mem_filter.mp hs2).2
    simp only [Bool.and_eq_true, beq_iff_eq] at hp
    exact hp.1
  · intro l h t ht
    simp only [taskList, Except.ok.injEq] at h
    subst h
    have ht2 := List.mem_of_mem_drop (List.mem_of_mem_take ht)
    have hp := (List.mem_filter.mp ht2).2
    simp only [Bool.and_eq_true, beq_iff_eq] at hp
    exact hp.1
  · intro b ss h
    simp only [boardGet] at h
    split at h
    · exact absurd h (by simp)
    · rename_i b0 hfind
      have hp := List.find?_some hfind
      simp only [Bool.and_eq_true, beq_iff_eq] at hp
      injection h with h
      injection h with h1 h2
      subst h1
      exact hp.1.2
  · intro s ts h
    simp only [stageGet] at h
    split at h
    · exact absurd h (by simp)
    · rename_i s0 hfind
      have hp := List.find?_some hfind
      simp only [Bool.and_eq_true, beq_iff_eq] at hp
      injection h with h
      injection h with h1 h2
      subst h1
      exact hp.1.2
  · intro t os h
    simp only [taskGet] at h
    split at h
    · exact absurd h (by simp)
    · rename_i t0 hfind
      have hp := List.find?_some hfind
      simp only [Bool.and_eq_true, beq_iff_eq] at hp
      injection h with h
      injection h with h1 h2
      subst h1
      exact hp.1.2

/-- C3 witness: the amended statement evaluated on the sample database:
the board and stage alice can list and get are indeed non-deleted. -/
theorem claim3_witness : boardA.deleted = false ∧ stageA.deleted = false := by
  have h1 := claim3_amended aliceU dbMain ⟨10, 0⟩ "b-a"
  have h2 := claim3_amended aliceU dbMain ⟨10, 0⟩ "s-a"
  exact ⟨h1.1 [boardA] rfl boardA (by decide),
    h2.2.2.2.2.1 stageA [taskA] rfl⟩

/-- Inversion of a successful task.update: the caller was authenticated,
the returned record is the row found by the scoped pre-fetch, and the
store holds the patched row. -/
theorem taskUpdate_ok_inv {user : Option UserRec} {db : DB} {inp : TaskUpdateInput}
    {t : TaskRec} {db' : DB} (h : taskUpdate user db inp = .ok (t, db')) :
    ∃ u, user = some u ∧
      db.tasks.find? (fun r => r.externalID == inp.externalID && r.deleted == false &&
        r.createdByID == u.externalID) = some t ∧
      db'.tasks = db.tasks.map
        (fun r => if r.externalID == inp.externalID then taskPatch inp t else r) := by
  cases user with
  | none => exact absurd h (by simp [taskUpdate])
  | some u =>
    refine ⟨u, rfl, ?_⟩
    simp only [taskUpdate] at h
    split at h
    · exact absurd h (by simp)
    · rename_i t1 hfind
      split at h
      · injection h with h
        injection h with h1 h2
        subst h1
        subst h2
        exact ⟨hfind, rfl⟩
      · exact absurd h (by simp)

/-- Inversion of a successful board.update: the caller was authenticated,
the found row exists, and the store holds the patched rows. -/
theorem boardUpdate_ok_inv {user : Option UserRec} {db : DB} {inp : BoardUpdateInput}
    {b : BoardRec} {db' : DB} (h : boardUpdate user db inp = .ok (b, db')) :
    ∃ u b0, user = some u ∧
      db.boards.find? (fun r => r.externalID == inp.externalID && r.deleted == false &&
        r.createdByID == u.externalID) = some b0 ∧ b = boardPatch inp b0 ∧
      db'.boards = db.boards.map
        (fun r => if r.externalID == inp.externalID then boardPatch inp r else r) := by
  cases user with
  | none => exact absurd h (by simp [boardUpdate])
  | some u =>
    simp only [boardUpdate] at h
    split at h
    · exact absurd h (by simp)
    · rename_i b0 hfind
      injection h with h
      injection h with h1 h2
      subst h2
      exact ⟨u, b0, rfl, hfind, h1.symm, rfl⟩

/-- C4: a patch field left null or unspecified keeps the stored value,
even a falsy stored value such as priority 0 or an empty description: the
task patch falls back field by field to the pre-fetched row, the board
patch skips undefined fields, and a successful task.update or
board.update writes exactly the patched row into the store (stage.update
has no optional input field). -/
theorem claim4_partial_update (inp : TaskUpdateInput) (t : TaskRec)
    (binp : BoardUpdateInput) (b : BoardRec) :
    (inp.title = none → (taskPatch inp t).title = t.title) ∧
    (inp.description = none → (taskPatch inp t).description = t.description) ∧
    (inp.dueDate = none → (taskPatch inp t).dueDate = t.dueDate) ∧
    (inp.priority = none → (taskPatch inp t).priority = t.priority) ∧
    (inp.stageExternalID = none → (taskPatch inp t).stageExternalID = t.stageExternalID) ∧
    (binp.title = none → (boardPatch binp b).title = b.title) ∧
    (binp.description = none → (boardPatch binp b).description = b.description) ∧
    (∀ user db t0 db', taskUpdate user db inp = .ok (t0, db') →
      db'.tasks = db.tasks.map
        (fun r => if r.externalID == inp.externalID then taskPatch inp t0 else r)) ∧
    (∀ user db b0 db', boardUpdate user db binp = .ok (b0, db') →
      db'.boards = db.boards.map
        (fun r => if r.externalID == binp.externalID then boardPatch binp r else r)) := by
  refine ⟨?_, ?_, ?_, ?_, ?_, ?_, ?_, ?_, ?_⟩
  · intro h; simp [taskPatch, jsOrStr, h]
  · intro h; simp [taskPatch, jsOrOptStr, h]
  · intro h; simp [taskPatch, h]
  · intro h; simp [taskPatch, jsOrNat, h]
  · intro h; simp [taskPatch, jsOrStr, h]
  · intro h; simp [boardPatch, h]
  · intro h; simp [boardPatch, h]
  · intro user db t0 db' h
    obtain ⟨u, -, -, hdb⟩ := taskUpdate_ok_inv h
    exact hdb
  · intro user db b0 db' h
    obtain ⟨u, b1, -, -, -, hdb⟩ := boardUpdate_ok_inv h
    exact hdb

/-- C4 witness: with an all-null patch the stored falsy values survive:
priority 0, empty description and the old title are all kept. -/
theorem claim4_witness :
    (taskPatch ⟨"t-9", none, none, none, none, none⟩
      ⟨"t-9", "Old", some "", 5, 0, "u-b", "s-b", false⟩).priority = 0 ∧
    (taskPatch ⟨"t-9", none, none, none, none, none⟩
      ⟨"t-9", "Old", some "", 5, 0, "u-b", "s-b", false⟩).description = some "" ∧
    (taskPatch ⟨"t-9", none, none, none, none, none⟩
      ⟨"t-9", "Old", some "", 5, 0, "u-b", "s-b", false⟩).title = "Old" := by
  have h := claim4_partial_update ⟨"t-9", none, none, none, none, none⟩
    ⟨"t-9", "Old", some "", 5, 0, "u-b", "s-b", false⟩ ⟨"b-a", none, none⟩ boardA
  exact ⟨(h.2.2.2.1 rfl).trans rfl, (h.2.1 rfl).trans rfl, (h.1 rfl).trans rfl⟩

/-- Task of bob used for the update round trip: title Old, empty
description, priority 0. -/
def task9 : TaskRec := ⟨"t-9", "Old", some "", 5, 0, "u-b", "s-b", false⟩

/-- Database holding bob, his stage and the task to update. -/
def db9 : DB := ⟨[bobU], [], [stageB], [task9]⟩

/-- Patch input retitling the task to New. -/
def inp9 : TaskUpdateInput := ⟨"t-9", some "New", none, none, none, none⟩

/-- The task row after the patch was written. -/
def task9after : TaskRec := ⟨"t-9", "New", some "", 5, 0, "u-b", "s-b", false⟩

/-- Successor database of the sample update. -/
def db9' : DB := ⟨[bobU], [], [stageB], [task9after]⟩

/-- C9: task.update returns the record as fetched BEFORE the patch: on
every successful call the returned task equals the row found by the
scoped pre-fetch against the old store, while the store receives the
patched row. -/
theorem claim9_update_returns_prefetch (user : Option UserRec) (u : UserRec)
    (db : DB) (inp : TaskUpdateInput) (t : TaskRec) (db' : DB)
    (huser : user = some u) (h : taskUpdate user db inp = .ok (t, db')) :
    db.tasks.find? (fun r => r.externalID == inp.externalID && r.deleted == false &&
      r.createdByID == u.externalID) = some t ∧
    db'.tasks = db.tasks.map
      (fun r => if r.externalID == inp.externalID then taskPatch inp t else r) := by
  subst huser
  obtain ⟨u2, hu, hfind, hdb⟩ := taskUpdate_ok_inv h
  injection hu with hu
  subst hu
  exact ⟨hfind, hdb⟩

/-- C9 witness: retitling the sample task from Old to New succeeds, the
store now holds the title New, yet the value returned to the client is
the pre-update row with the title Old. -/
theorem claim9_witness :
    db9.tasks.find? (fun r => r.externalID == inp9.externalID && r.deleted == false &&
      r.createdByID == bobU.externalID) = some task9 ∧
    db9'.tasks = db9.tasks.map
      (fun r => if r.externalID == inp9.externalID then taskPatch inp9 task9 else r) :=
  claim9_update_returns_prefetch (some bobU) bobU db9 inp9 task9 db9' rfl rfl

/-- C5: the create-time checks are inverted and mistargeted.  With no
Sprint 1 board present, board.create for alice fails (findFirstOrThrow
raises precisely because no same-title row exists); with a Sprint 1 board
already present it succeeds and inserts a duplicate; stage.create fails
although the target board exists and no same-title stage exists, because
it queries the BOARD table with the stage title; task.create fails
although the target stage of input.stageExternalID exists non-deleted,
because it queries the stage table with the TASK title. -/
theorem claim5_create_checks_inverted :
    boardCreate (some aliceU) dbC5 ⟨"Sprint 1", some "x"⟩ "b-2" =
      .error .internalServerError ∧
    boardCreate (some aliceU) dbDup ⟨"Sprint 1", some "x"⟩ "b-2" =
      .ok (boardDupNew, ⟨[aliceU], [boardSprint, boardDupNew], [], []⟩) ∧
    stageCreate (some aliceU) dbMain ⟨"Todo", "d", "b-a"⟩ "s-new" =
      .error .internalServerError ∧
    taskCreate (some aliceU) dbC5 ⟨"Write spec", none, none, 0, "s-a"⟩ "t-new" 7 =
      .error .internalServerError :=
  ⟨rfl, rfl, rfl, rfl⟩

/-- Patch input moving the task of bob onto the stage of alice. -/
def inpMove : TaskUpdateInput := ⟨"t-b", none, none, none, none, some "s-a"⟩

/-- The task of bob after being attached to the stage of alice. -/
def taskBMoved : TaskRec := ⟨"t-b", "Fix bug", none, 3, 1, "u-b", "s-a", false⟩

/-- Successor database of the cross-owner move. -/
def dbMainMoved : DB :=
  ⟨[aliceU, bobU], [boardA, boardSneak], [stageA, stageB], [taskA, taskBMoved]⟩

/-- The stage bob creates on the board of alice. -/
def sneakStage : StageRec := ⟨"s-x", "Sneak", "d", "u-b", "b-a", false⟩

/-- Successor database after bob attaches a stage to the board of
alice. -/
def dbMainSneak : DB :=
  ⟨[aliceU, bobU], [boardA, boardSneak], [stageA, stageB, sneakStage], [taskA, taskB]⟩

/-- C6: the owner chain is breakable.  task.update lets bob attach his
task to the stage of alice (the stage connect checks only existence of
the unique row), and stage.create lets bob attach a stage he owns to the
board of alice, so after these operations a child and its parent have
different owners. -/
theorem claim6_owner_chain_breakable :
    taskUpdate (some bobU) dbMain inpMove = .ok (taskB, dbMainMoved) ∧
    taskBMoved.createdByID = "u-b" ∧
    taskBMoved.stageExternalID = stageA.externalID ∧
    stageA.createdByID = "u-a" ∧
    stageCreate (some bobU) dbMain ⟨"Sneak", "d", "b-a"⟩ "s-x" =
      .ok (sneakStage, dbMainSneak) ∧
    sneakStage.createdByID = "u-b" ∧
    sneakStage.boardExternalID = boardA.externalID ∧
    boardA.createdByID = "u-a" ∧
    ("u-b" : String) ≠ "u-a" :=
  ⟨rfl, rfl, rfl, rfl, rfl, rfl, rfl, rfl, by decide⟩

/-- C7: login round trip.  A wrong password for an existing username is
rejected with an error; correct credentials return the one-day token
signed for the externalID of the user, and presenting that token to
createContext before expiry resolves exactly that record. -/
theorem claim7_login_roundtrip (db : DB) (u : UserRec) (secret : String)
    (uname pw wrong : String) (now now2 : Nat)
    (hfind : db.users.find? (fun x => x.username == uname) = some u)
    (hpw : bcryptCompare pw u.password = true)
    (hwrong : bcryptCompare wrong u.password = false)
    (hexp : now2 < now + 86400)
    (hres : db.users.find? (fun x => x.externalID == u.externalID) = some u) :
    isErr (login db ⟨uname, wrong⟩ secret now) = true ∧
    login db ⟨uname, pw⟩ secret now = .ok (jwtSign u.externalID secret now) ∧
    createContext db (some (jwtSign u.externalID secret now)) secret now2 =
      .ok ⟨some u⟩ := by
  refine ⟨?_, ?_, ?_⟩
  · simp [login, hfind, hwrong, isErr]
  · simp [login, hfind, hpw]
  · simp [createContext, jwtSign, jwtVerify, hexp, hres]

/-- C7 witness: alice logs in on the sample database; the wrong password
is rejected, the right one yields a token that createContext resolves to
her record 100 seconds later. -/
theorem claim7_witness :
    isErr (login dbMain ⟨"alice", "nope"⟩ "topsecret" 0) = true ∧
    login dbMain ⟨"alice", "password1"⟩ "topsecret" 0 =
      .ok (jwtSign "u-a" "topsecret" 0) ∧
    createContext dbMain (some (jwtSign "u-a" "topsecret" 0)) "topsecret" 100 =
      .ok ⟨some aliceU⟩ :=
  claim7_login_roundtrip dbMain aliceU "topsecret" "alice" "password1" "nope" 0 100
    rfl rfl rfl (by decide) rfl

/-- C8 counterexample: createContext does not fail closed: a malformed
token and an expired token both make createContext propagate the
verification error instead of returning the anonymous context. -/
theorem claim8_counterexample :
    createContext dbMain (some BearerToken.malformed) "topsecret" 0 =
      .error .invalidToken ∧
    createContext dbMain (some (jwtSign "u-a" "topsecret" 0)) "topsecret" 86400 =
      .error .tokenExpired ∧
    createContext dbMain (some BearerToken.malformed) "topsecret" 0 ≠ .ok ⟨none⟩ := by
  refine ⟨rfl, rfl, ?_⟩
  intro h
  exact Except.noConfusion h

/-- C8 as amended: createContext returns the anonymous context exactly
when no bearer token is present; a token that fails verification makes
createContext propagate that error to the transport instead. -/
theorem claim8_amended (db : DB) (secret : String) (now : Nat)
    (tok : BearerToken) (e : Err) (h : jwtVerify tok secret now = .error e) :
    createContext db none secret now = .ok ⟨none⟩ ∧
    createContext db (some tok) secret now = .error e := by
  refine ⟨rfl, ?_⟩
  simp only [createContext]
  rw [h]

/-- C8 witness: on the sample database a tokenless request is anonymous
and a malformed token propagates the verification failure. -/
theorem claim8_witness :
    createContext dbMain none "topsecret" 0 = .ok ⟨none⟩ ∧
    createContext dbMain (some BearerToken.malformed) "topsecret" 0 =
      .error .invalidToken :=
  claim8_amended dbMain "topsecret" 0 BearerToken.malformed Err.invalidToken rfl

end Kanbex
